import Mathlib

/-!
Verification of the grant-target identity and delta-reconciliation scheme of
the Snowflake Terraform provider (pkg/resources/database_role_grants.go).

Go strings are modelled as `List Char`; `strings.Split` and `strings.Join`
become `splitOnChar` and `joinWith`.  Fallible Go code (out-of-range slice
indexing, returned `error` values) is modelled with `Option` / `Except`.
-/

abbrev Str := List Char

def lit (s : String) : Str := s.data

/-- Embeds Go `strings.Split(s, string(d))` for a one-character separator:
splitting the empty string yields one empty field, and every occurrence of
the separator starts a new field. -/
def splitOnChar (d : Char) : Str → List Str
  | [] => [[]]
  | c :: cs =>
    match splitOnChar d cs with
    | [] => [[]]
    | s :: ss => if c = d then [] :: s :: ss else (c :: s) :: ss

/-- Embeds Go `strings.Join(ls, string(d))`. -/
def joinWith (d : Char) : List Str → Str
  | [] => []
  | [s] => s
  | s :: ss => s ++ d :: joinWith d ss

/-- The composite resource identity of grant_privileges_to_database_role
(source `GrantPrivilegesToDatabaseRoleID`, database_role_grants.go lines
682-699).  Field defaults are the Go zero values, so `{}` is the Go literal
`GrantPrivilegesToDatabaseRoleID{}`. -/
structure GrantPrivilegesToDatabaseRoleID where
  RoleName : Str := []
  DatabaseName : Str := []
  Privileges : List Str := []
  AllPrivileges : Bool := false
  WithGrantOption : Bool := false
  OnDatabase : Bool := false
  OnSchema : Bool := false
  OnSchemaObject : Bool := false
  All : Bool := false
  Future : Bool := false
  ObjectType : Str := []
  ObjectName : Str := []
  ObjectTypePlural : Str := []
  InSchema : Bool := false
  SchemaName : Str := []
  InDatabase : Bool := false
deriving DecidableEq, Repr

/-- One variadic argument of the identifier encoder: a string, a string
list, or a boolean. -/
inductive IDAttribute where
  | attrString (s : Str)
  | attrStringList (l : List Str)
  | attrBool (b : Bool)

/-- Go `strconv.FormatBool`. -/
def boolField (b : Bool) : Str := if b then lit "true" else lit "false"

/-- Modelled from the spec: `helpers.EncodeSnowflakeID` (package
pkg/helpers, not under src/) — "pipe-delimited fields in fixed order …
comma-joined privileges … each boolean rendered as literal
`"true"`/`"false"`" (spec section 6); the field delimiter is `|` and the
secondary delimiter for string lists is `,` (spec section 4.2). -/
def encodeSnowflakeID (attributes : List IDAttribute) : Str :=
  joinWith '|' (attributes.map fun a =>
    match a with
    | .attrString s => s
    | .attrStringList l => joinWith ',' l
    | .attrBool b => boolField b)

/-- Source `func (v GrantPrivilegesToDatabaseRoleID) String() string`
(database_role_grants.go lines 726-728): encodes the 15 listed fields, in
source order.  `InDatabase` is not among the encoded fields. -/
def GrantPrivilegesToDatabaseRoleID.String (v : GrantPrivilegesToDatabaseRoleID) : Str :=
  encodeSnowflakeID
    [.attrString v.RoleName, .attrString v.DatabaseName,
     .attrStringList v.Privileges, .attrBool v.AllPrivileges,
     .attrBool v.WithGrantOption, .attrBool v.OnDatabase,
     .attrBool v.OnSchema, .attrBool v.OnSchemaObject, .attrBool v.All,
     .attrBool v.Future, .attrString v.ObjectType,
     .attrString v.ObjectName, .attrString v.ObjectTypePlural,
     .attrBool v.InSchema, .attrString v.SchemaName]

/-- Source `NewGrantPrivilegesToDatabaseRoleID` (database_role_grants.go
lines 701-724).  The Go function indexes `parts[0]` … `parts[14]` without a
length check; an out-of-range index panics, modelled here as `none`.  All
field accesses are in bounds exactly when the split yields at least 15
parts.  `InDatabase` is never read from the identifier and stays at its
zero value `false`. -/
def NewGrantPrivilegesToDatabaseRoleID (id : Str) : Option GrantPrivilegesToDatabaseRoleID :=
  let parts := splitOnChar '|' id
  if h : 15 ≤ parts.length then
    let privileges0 := splitOnChar ',' (parts.get ⟨2, by omega⟩)
    let privileges := if privileges0 = [[]] then [] else privileges0
    some
      { RoleName := parts.get ⟨0, by omega⟩
        DatabaseName := parts.get ⟨1, by omega⟩
        Privileges := privileges
        AllPrivileges := decide (parts.get ⟨3, by omega⟩ = lit "true")
        WithGrantOption := decide (parts.get ⟨4, by omega⟩ = lit "true")
        OnDatabase := decide (parts.get ⟨5, by omega⟩ = lit "true")
        OnSchema := decide (parts.get ⟨6, by omega⟩ = lit "true")
        OnSchemaObject := decide (parts.get ⟨7, by omega⟩ = lit "true")
        All := decide (parts.get ⟨8, by omega⟩ = lit "true")
        Future := decide (parts.get ⟨9, by omega⟩ = lit "true")
        ObjectType := parts.get ⟨10, by omega⟩
        ObjectName := parts.get ⟨11, by omega⟩
        ObjectTypePlural := parts.get ⟨12, by omega⟩
        InSchema := decide (parts.get ⟨13, by omega⟩ = lit "true")
        SchemaName := parts.get ⟨14, by omega⟩ }
  else none

/-! Delta reconciler: the privilege-diff loops of
`UpdateGrantPrivilegesToDatabaseRole` (database_role_grants.go lines
875-887).  The Go loops append, in input order, each element of one list
that `slices.Contains` does not find in the other. -/

def removePrivileges (oldPrivileges newPrivileges : List Str) : List Str :=
  oldPrivileges.filter fun p => decide (p ∉ newPrivileges)

def addPrivileges (oldPrivileges newPrivileges : List Str) : List Str :=
  newPrivileges.filter fun p => decide (p ∉ oldPrivileges)

/-! The sdk grant-target types (package pkg/sdk) as far as
database_role_grants.go populates them.  Snowflake identifiers are kept as
raw strings; a two-part database-object identifier is stored as
`database ++ "." ++ name`. -/

structure SdkObject where
  ObjectType : Str := []
  Name : Option Str := none
deriving DecidableEq, Repr

structure GrantOnSchema where
  Schema : Option Str := none
  AllSchemasInDatabase : Option Str := none
  FutureSchemasInDatabase : Option Str := none
deriving DecidableEq, Repr

structure GrantOnSchemaObjectIn where
  PluralObjectType : Str := []
  InDatabase : Option Str := none
  InSchema : Option Str := none
deriving DecidableEq, Repr

structure GrantOnSchemaObject where
  SchemaObject : Option SdkObject := none
  All : Option GrantOnSchemaObjectIn := none
  Future : Option GrantOnSchemaObjectIn := none
deriving DecidableEq, Repr

structure DatabaseRoleGrantOn where
  Database : Option Str := none
  Schema : Option GrantOnSchema := none
  SchemaObject : Option GrantOnSchemaObject := none
deriving DecidableEq, Repr

structure DatabaseRoleGrantPrivileges where
  AllPrivileges : Option Bool := none
  DatabasePrivileges : Option (List Str) := none
  SchemaPrivileges : Option (List Str) := none
  SchemaObjectPrivileges : Option (List Str) := none
deriving DecidableEq, Repr

/-- Source `setDatabaseRolePrivilegeOptions` (database_role_grants.go lines
1035-1063). -/
def setDatabaseRolePrivilegeOptions (privileges : List Str)
    (allPrivileges onDatabase onSchema onSchemaObject : Bool) :
    Option DatabaseRoleGrantPrivileges :=
  if allPrivileges then some { AllPrivileges := some true }
  else if onDatabase then some { DatabasePrivileges := some privileges }
  else if onSchema then some { SchemaPrivileges := some privileges }
  else if onSchemaObject then some { SchemaObjectPrivileges := some privileges }
  else none

/-! The configuration attributes read by
`configureDatabaseRoleGrantPrivilegeOptions`, following the resource
schema (database_role_grants.go lines 346-580).  The `on_schema` and
`on_schema_object` blocks are `MaxItems: 1` lists, modelled as `Option`;
`d.GetOk` reporting a populated branch corresponds to `true` for the
boolean and `isSome` for the lists. -/

structure OnSchemaConfig where
  schema_name : Str := []
  all_schemas : Bool := false
  future_schemas : Bool := false
deriving DecidableEq, Repr

structure OnAllOrFutureConfig where
  object_type_plural : Str := []
  in_database : Bool := false
  in_schema : Str := []
deriving DecidableEq, Repr

structure OnSchemaObjectConfig where
  object_type : Str := []
  object_name : Str := []
  all : Option OnAllOrFutureConfig := none
  future : Option OnAllOrFutureConfig := none
deriving DecidableEq, Repr

structure GrantConfig where
  on_database : Bool := false
  on_schema : Option OnSchemaConfig := none
  on_schema_object : Option OnSchemaObjectConfig := none
deriving DecidableEq, Repr

/-- Source `configureDatabaseRoleGrantPrivilegeOptions`
(database_role_grants.go lines 946-1033), with the mutation of `on` and
`resourceID` threaded explicitly.  When `object_name` is set but
`object_type` is not, line 991 dereferences the nil
`on.SchemaObject.SchemaObject`; that runtime panic is modelled as the
distinct `Except.error` outcome below (the schema's `RequiredWith` keeps
such configurations from reaching this function, see
`validateRequiredWith`). -/
def configureDatabaseRoleGrantPrivilegeOptions (cfg : GrantConfig)
    (privileges : List Str) (allPrivileges : Bool)
    (resourceID : GrantPrivilegesToDatabaseRoleID) :
    Except Str (Option DatabaseRoleGrantPrivileges × DatabaseRoleGrantOn ×
      GrantPrivilegesToDatabaseRoleID) :=
  if cfg.on_database then
    let onTarget : DatabaseRoleGrantOn := { Database := some resourceID.DatabaseName }
    let rid := { resourceID with OnDatabase := true }
    Except.ok (setDatabaseRolePrivilegeOptions privileges allPrivileges true false false, onTarget, rid)
  else
    match cfg.on_schema with
    | some onSchema =>
      let rid := { resourceID with OnSchema := true }
      let gos : GrantOnSchema := {}
      let (rid, gos) :=
        if onSchema.schema_name ≠ [] then
          ({ rid with SchemaName := onSchema.schema_name },
           { gos with Schema := some (rid.DatabaseName ++ '.' :: onSchema.schema_name) })
        else (rid, gos)
      let (rid, gos) :=
        if onSchema.all_schemas then
          ({ rid with All := true, InDatabase := true },
           { gos with AllSchemasInDatabase := some rid.DatabaseName })
        else (rid, gos)
      let (rid, gos) :=
        if onSchema.future_schemas then
          ({ rid with Future := true, InDatabase := true },
           { gos with FutureSchemasInDatabase := some rid.DatabaseName })
        else (rid, gos)
      Except.ok (setDatabaseRolePrivilegeOptions privileges allPrivileges false true false,
        { Schema := some gos }, rid)
    | none =>
      match cfg.on_schema_object with
      | some onSchemaObject =>
        let rid := { resourceID with OnSchemaObject := true }
        let so : GrantOnSchemaObject := {}
        let (rid, so) :=
          if onSchemaObject.object_type ≠ [] then
            ({ rid with ObjectType := onSchemaObject.object_type },
             { so with SchemaObject := some { ObjectType := onSchemaObject.object_type } })
          else (rid, so)
        if onSchemaObject.object_name ≠ [] ∧ so.SchemaObject = none then
          Except.error (lit "panic: nil pointer dereference")
        else
        let (rid, so) :=
          if onSchemaObject.object_name ≠ [] then
            ({ rid with ObjectName := onSchemaObject.object_name },
             { so with SchemaObject := so.SchemaObject.map fun o =>
                 { o with Name := some (rid.DatabaseName ++ '.' :: onSchemaObject.object_name) } })
          else (rid, so)
        let (rid, so) :=
          match onSchemaObject.all with
          | some allCfg =>
            let rid := { rid with All := true, ObjectTypePlural := allCfg.object_type_plural }
            let inr : GrantOnSchemaObjectIn := { PluralObjectType := allCfg.object_type_plural }
            let (rid, inr) :=
              if allCfg.in_database then
                ({ rid with InDatabase := true }, { inr with InDatabase := some rid.DatabaseName })
              else (rid, inr)
            let (rid, inr) :=
              if allCfg.in_schema ≠ [] then
                ({ rid with InSchema := true, SchemaName := allCfg.in_schema },
                 { inr with InSchema := some (rid.DatabaseName ++ '.' :: allCfg.in_schema) })
              else (rid, inr)
            (rid, { so with All := some inr })
          | none => (rid, so)
        let (rid, so) :=
          match onSchemaObject.future with
          | some futureCfg =>
            let rid := { rid with Future := true, ObjectTypePlural := futureCfg.object_type_plural }
            let inr : GrantOnSchemaObjectIn := { PluralObjectType := futureCfg.object_type_plural }
            let (rid, inr) :=
              if futureCfg.in_database then
                ({ rid with InDatabase := true }, { inr with InDatabase := some rid.DatabaseName })
              else (rid, inr)
            let (rid, inr) :=
              if futureCfg.in_schema ≠ [] then
                ({ rid with InSchema := true, SchemaName := futureCfg.in_schema },
                 { inr with InSchema := some (rid.DatabaseName ++ '.' :: futureCfg.in_schema) })
              else (rid, inr)
            (rid, { so with Future := some inr })
          | none => (rid, so)
        Except.ok (setDatabaseRolePrivilegeOptions privileges allPrivileges false false true,
          { SchemaObject := some so }, rid)
      | none => Except.error (lit "invalid grant options")

/-- Modelled from the spec: the resource schema declares `ConflictsWith`
between each pair of `on_database`, `on_schema` and `on_schema_object`
(database_role_grants.go lines 368-415); the Terraform plugin SDK that
enforces `ConflictsWith` is not under src/.  Per the spec (sections 4.1 and
8), a configuration populating two conflicting attributes "fails validation
before any remote call", at configuration-parse time. -/
def validateTargetConflicts (cfg : GrantConfig) : Except Str Unit :=
  if (cfg.on_database && cfg.on_schema.isSome) ||
     (cfg.on_database && cfg.on_schema_object.isSome) ||
     (cfg.on_schema.isSome && cfg.on_schema_object.isSome) then
    Except.error (lit "conflicting target configuration")
  else Except.ok ()

/-- Modelled from the spec: the resource schema declares `RequiredWith`
between `on_schema_object.0.object_type` and `on_schema_object.0.object_name`
(database_role_grants.go lines 422 and 453); the Terraform plugin SDK that
enforces `RequiredWith` is not under src/.  A configuration setting one of
the two without the other fails validation at configuration-parse time,
before any lifecycle callback runs. -/
def validateRequiredWith (cfg : GrantConfig) : Except Str Unit :=
  match cfg.on_schema_object with
  | some onSchemaObject =>
    if (onSchemaObject.object_type ≠ [] ∧ onSchemaObject.object_name = []) ∨
       (onSchemaObject.object_name ≠ [] ∧ onSchemaObject.object_type = []) then
      Except.error (lit "object_type and object_name must be set together")
    else Except.ok ()
  | none => Except.ok ()

/-- The target-resolution pipeline a configuration passes before any remote
GRANT or REVOKE is issued: schema-level conflict and required-with
validation, then `configureDatabaseRoleGrantPrivilegeOptions` (called by
Create, Update and Delete before `client.Grants` calls). -/
def createTargetResolution (cfg : GrantConfig) (privileges : List Str)
    (allPrivileges : Bool) (resourceID : GrantPrivilegesToDatabaseRoleID) :
    Except Str (Option DatabaseRoleGrantPrivileges × DatabaseRoleGrantOn ×
      GrantPrivilegesToDatabaseRoleID) := do
  let _ ← validateTargetConflicts cfg
  let _ ← validateRequiredWith cfg
  configureDatabaseRoleGrantPrivilegeOptions cfg privileges allPrivileges resourceID

/-- Number of populated top-level target branches in a configuration. -/
def populatedTargetCount (cfg : GrantConfig) : Nat :=
  (if cfg.on_database then 1 else 0) +
  (if cfg.on_schema.isSome then 1 else 0) +
  (if cfg.on_schema_object.isSome then 1 else 0)

/-- Number of populated branches of a resolved grant target. -/
def grantOnBranchCount (target : DatabaseRoleGrantOn) : Nat :=
  (if target.Database.isSome then 1 else 0) +
  (if target.Schema.isSome then 1 else 0) +
  (if target.SchemaObject.isSome then 1 else 0)

/-! Remote statements issued by the two update functions, in issue order. -/

inductive GrantStmt where
  | grantPrivilegesStmt (privileges : List Str)
  | revokePrivilegesStmt (privileges : List Str)
deriving DecidableEq, Repr

/-- The remote statements issued by `UpdateGrantPrivilegesToDatabaseRole`
when the privilege set changed (database_role_grants.go lines 870-915): the
source first issues the GRANT for `addPrivileges` ("first add new
privileges"), then the REVOKE for `removePrivileges` ("then remove old
privileges"), each only when its list is non-empty and each preceded by a
`configureDatabaseRoleGrantPrivilegeOptions` call whose error aborts the
update.  Remote execution itself is assumed to succeed; a remote failure
only truncates the trace. -/
def updatePrivilegesStatements (cfg : GrantConfig)
    (oldPrivileges newPrivileges : List Str) : Except Str (List GrantStmt) := do
  let add := addPrivileges oldPrivileges newPrivileges
  let remove := removePrivileges oldPrivileges newPrivileges
  let grants ←
    if add ≠ [] then do
      let _ ← configureDatabaseRoleGrantPrivilegeOptions cfg add false {}
      pure [GrantStmt.grantPrivilegesStmt add]
    else pure []
  let revokes ←
    if remove ≠ [] then do
      let _ ← configureDatabaseRoleGrantPrivilegeOptions cfg remove false {}
      pure [GrantStmt.revokePrivilegesStmt remove]
    else pure []
  pure (grants ++ revokes)

inductive GranteeKind where
  | userKind
  | roleKind
deriving DecidableEq, Repr

inductive RoleGrantStmt where
  | grantTo (kind : GranteeKind) (grantee : Str)
  | revokeFrom (kind : GranteeKind) (grantee : Str)
deriving DecidableEq, Repr

/-- The remote statements issued by the helper `x` inside
`UpdateDatabaseRoleGrants` (database_role_grants.go lines 292-318) for one
grantee kind: one revoke per element of `old − new`, then one grant per
element of `new − old`. -/
def xStatements (kind : GranteeKind) (oldList newList : List Str) : List RoleGrantStmt :=
  (oldList.filter fun u => decide (u ∉ newList)).map (RoleGrantStmt.revokeFrom kind) ++
  (newList.filter fun u => decide (u ∉ oldList)).map (RoleGrantStmt.grantTo kind)

/-- The full statement trace of `UpdateDatabaseRoleGrants`
(database_role_grants.go lines 287-329): `x("users", …)` then
`x("roles", …)`. -/
def updateDatabaseRoleGrantsStatements (oldUsers newUsers oldRoles newRoles : List Str) :
    List RoleGrantStmt :=
  xStatements GranteeKind.userKind oldUsers newUsers ++
  xStatements GranteeKind.roleKind oldRoles newRoles

/-- One row of `client.Grants.Show` output, as read by
`readDatabaseRoleGrantPrivileges`: `GranteeName` and `GrantedBy` stand for
the `.Name()` of the corresponding sdk identifiers. -/
structure ObservedGrant where
  Privilege : Str := []
  GrantedOn : Str := []
  GrantOn : Str := []
  GranteeName : Str := []
  GrantOption : Bool := false
  GrantedBy : Str := []
deriving DecidableEq, Repr

/-- Source `readDatabaseRoleGrantPrivileges` (database_role_grants.go lines
1065-1097): the privilege list written back with `d.Set("privileges", …)`,
built by the loop over the observed grants. -/
def readDatabaseRoleGrantPrivileges (grantedOn : Str)
    (id : GrantPrivilegesToDatabaseRoleID) (withGrantOption : Bool)
    (roleName : Str) : List ObservedGrant → List Str
  | [] => []
  | grant :: rest =>
    let tail := readDatabaseRoleGrantPrivileges grantedOn id withGrantOption roleName rest
    if grant.Privilege ∉ id.Privileges then tail
    else if grant.GrantOption = withGrantOption ∧ grant.GranteeName = roleName then
      if id.Future = false ∧ grant.GrantedBy = [] then tail
      else if grantedOn = grant.GrantedOn ∨ grantedOn = grant.GrantOn then
        grant.Privilege :: tail
      else tail
    else tail

/-! The Read lifecycle of grant_privileges_to_database_role. -/

structure ShowGrantsOn where
  Object : Option SdkObject := none
deriving DecidableEq, Repr

structure ShowGrantsIn where
  Database : Option Str := none
  Schema : Option Str := none
deriving DecidableEq, Repr

structure ShowGrantOptions where
  Future : Option Bool := none
  On : Option ShowGrantsOn := none
  In : Option ShowGrantsIn := none
deriving DecidableEq, Repr

/-- Show-grant options naming one object (`sdk.ShowGrantsOn`). -/
def showGrantsOnObject (objectType name : Str) : ShowGrantOptions :=
  { On := some { Object := some { ObjectType := objectType, Name := some name } } }

/-- Show-grant options for future grants in one database
(`sdk.ShowGrantsIn`). -/
def showGrantsFutureInDatabase (database : Str) : ShowGrantOptions :=
  { Future := some true, In := some { Database := some database } }

/-- What `ReadGrantPrivilegesToDatabaseRole` does after decoding the
identifier: `noop` returns nil immediately — no `client.Grants.Show` query
and no `d.Set` write; `query` proceeds to `readDatabaseRoleGrantPrivileges`,
which queries the remote system and writes the privileges attribute. -/
inductive ReadStep where
  | noop
  | query (grantOn : Str) (opts : ShowGrantOptions)
deriving DecidableEq, Repr

/-- Source `ReadGrantPrivilegesToDatabaseRole` (database_role_grants.go
lines 765-858) on the decoded identifier.  `singularOf` stands for
`sdk.PluralObjectType(…).Singular()` (package pkg/sdk, external to the
translation unit).  In the `OnSchemaObject`-future branch the source
assigns the in-schema options and then unconditionally overwrites them with
the in-database options; the model keeps the final value. -/
def readGrantPrivilegesPlan (singularOf : Str → Str)
    (resourceID : GrantPrivilegesToDatabaseRoleID) : ReadStep :=
  if resourceID.AllPrivileges then ReadStep.noop
  else
    let st : Str × ShowGrantOptions := ([], {})
    let st :=
      if resourceID.OnDatabase then
        (lit "DATABASE", showGrantsOnObject (lit "DATABASE") resourceID.DatabaseName)
      else st
    if resourceID.OnSchema ∧ resourceID.All then ReadStep.noop
    else
      let st :=
        if resourceID.OnSchema then
          let o :=
            if resourceID.SchemaName ≠ [] then
              showGrantsOnObject (lit "SCHEMA")
                (resourceID.DatabaseName ++ '.' :: resourceID.SchemaName)
            else st.2
          let o :=
            if resourceID.Future then showGrantsFutureInDatabase resourceID.DatabaseName
            else o
          (lit "SCHEMA", o)
        else st
      if resourceID.OnSchemaObject ∧ resourceID.All then ReadStep.noop
      else
        let st :=
          if resourceID.OnSchemaObject then
            let st :=
              if resourceID.ObjectName ≠ [] then
                (resourceID.ObjectType,
                 showGrantsOnObject resourceID.ObjectType
                   (resourceID.DatabaseName ++ '.' :: resourceID.ObjectName))
              else st
            let st :=
              if resourceID.Future then
                (singularOf resourceID.ObjectTypePlural,
                 showGrantsFutureInDatabase resourceID.DatabaseName)
              else st
            st
          else st
        ReadStep.query st.1 st.2

/-! The revoke helpers of database_role_grants (the roles/users resource). -/

/-- Outcome of executing one remote statement: `ok` is a nil Go error,
`snowflakeError` a `*gosnowflake.SnowflakeError` with its `Number`, and
`otherError` any other non-nil error. -/
inductive SnowflakeExecResult where
  | ok
  | snowflakeError (number : Int) (message : Str)
  | otherError (message : Str)
deriving DecidableEq, Repr

/-- Source `revokeDatabaseRoleFromRole` (database_role_grants.go lines
242-263): `execResult` is the outcome of executing the REVOKE statement and
`listedRoleNames` the names returned by the secondary
`snowflake.ListRoles(db, role2)` lookup. -/
def revokeDatabaseRoleFromRole (execResult : SnowflakeExecResult)
    (listedRoleNames : List Str) (role2 : Str) : SnowflakeExecResult :=
  match execResult with
  | SnowflakeExecResult.snowflakeError n m =>
    if n = 2003 ∧ role2 ∉ listedRoleNames then SnowflakeExecResult.ok
    else SnowflakeExecResult.snowflakeError n m
  | e => e

/-- Source `revokeDatabaseRoleFromUser` (database_role_grants.go lines
265-285): `listedLoginNames` are the login names returned by the secondary
`snowflake.ListUsers(user, db)` lookup. -/
def revokeDatabaseRoleFromUser (execResult : SnowflakeExecResult)
    (listedLoginNames : List Str) (user : Str) : SnowflakeExecResult :=
  match execResult with
  | SnowflakeExecResult.snowflakeError n m =>
    if n = 2003 ∧ user ∉ listedLoginNames then SnowflakeExecResult.ok
    else SnowflakeExecResult.snowflakeError n m
  | e => e

/-! Concrete sample values used by witnesses and counterexamples. -/

def sampleRoundTripID : GrantPrivilegesToDatabaseRoleID :=
  { RoleName := lit "role1", DatabaseName := lit "db1",
    Privileges := [lit "USAGE", lit "MONITOR"], WithGrantOption := true,
    OnSchema := true, SchemaName := lit "schema1" }

def sampleInDatabaseID : GrantPrivilegesToDatabaseRoleID :=
  { RoleName := lit "role1", DatabaseName := lit "db1",
    Privileges := [lit "SELECT"], OnSchemaObject := true, All := true,
    ObjectTypePlural := lit "TABLES", InDatabase := true }

def sampleOnDatabaseConfig : GrantConfig := { on_database := true }

def sampleObservedGrant : ObservedGrant :=
  { Privilege := lit "USAGE", GrantedOn := lit "DATABASE",
    GranteeName := lit "role1", GrantOption := false, GrantedBy := lit "admin" }

def sampleReadID : GrantPrivilegesToDatabaseRoleID :=
  { RoleName := lit "role1", DatabaseName := lit "db1",
    Privileges := [lit "USAGE"], OnDatabase := true }

theorem splitOnChar_ne_nil (d : Char) (s : Str) : splitOnChar d s ≠ [] := by
  induction s with
  | nil => simp [splitOnChar]
  | cons c cs ih =>
    rcases h : splitOnChar d cs with _ | ⟨u, us⟩
    · exact absurd h ih
    · simp only [splitOnChar, h]
      split <;> simp

theorem splitOnChar_cons_delim (d : Char) (t : Str) :
    splitOnChar d (d :: t) = [] :: splitOnChar d t := by
  rcases h : splitOnChar d t with _ | ⟨u, us⟩
  · exact absurd h (splitOnChar_ne_nil d t)
  · simp [splitOnChar, h]

theorem splitOnChar_append (d : Char) (s t : Str) (hs : d ∉ s) (u : Str)
    (us : List Str) (h : splitOnChar d t = u :: us) :
    splitOnChar d (s ++ t) = (s ++ u) :: us := by
  induction s with
  | nil => simpa using h
  | cons c cs ih =>
    have hc : c ≠ d := by
      intro e
      exact hs (by simp [e])
    have hcs : d ∉ cs := fun m => hs (List.mem_cons_of_mem _ m)
    simp only [List.cons_append, splitOnChar, List.append_eq]
    rw [ih hcs]
    simp [hc]

theorem splitOnChar_no_delim (d : Char) (s : Str) (hs : d ∉ s) :
    splitOnChar d s = [s] := by
  simpa using splitOnChar_append d s [] hs [] [] rfl

theorem splitOnChar_joinWith (d : Char) (ls : List Str) (h0 : ls ≠ [])
    (h : ∀ s ∈ ls, d ∉ s) : splitOnChar d (joinWith d ls) = ls := by
  induction ls with
  | nil => exact absurd rfl h0
  | cons s ss ih =>
    rcases ss with _ | ⟨s2, ss2⟩
    · exact splitOnChar_no_delim d s (h s (by simp))
    · have htail : splitOnChar d (joinWith d (s2 :: ss2)) = s2 :: ss2 :=
        ih (by simp) (fun x hx => h x (List.mem_cons_of_mem _ hx))
      have hmid : splitOnChar d (d :: joinWith d (s2 :: ss2)) = [] :: s2 :: ss2 := by
        rw [splitOnChar_cons_delim, htail]
      have := splitOnChar_append d s (d :: joinWith d (s2 :: ss2))
        (h s (by simp)) [] (s2 :: ss2) hmid
      simpa [joinWith] using this

theorem length_splitOnChar (d : Char) (s : Str) :
    (splitOnChar d s).length = s.count d + 1 := by
  induction s with
  | nil => simp [splitOnChar]
  | cons c cs ih =>
    rcases h : splitOnChar d cs with _ | ⟨u, us⟩
    · exact absurd h (splitOnChar_ne_nil d cs)
    · rw [h] at ih
      simp only [splitOnChar, h]
      by_cases hc : c = d
      · subst hc
        rw [if_pos rfl, List.count_cons_self]
        simp at ih ⊢
        omega
      · rw [if_neg hc]
        rw [List.count_cons_of_ne (fun e => hc e.symm)]
        simp at ih ⊢
        omega

theorem not_mem_joinWith (c d : Char) (ls : List Str) (hcd : c ≠ d)
    (h : ∀ s ∈ ls, c ∉ s) : c ∉ joinWith d ls := by
  induction ls with
  | nil => simp [joinWith]
  | cons s ss ih =>
    rcases ss with _ | ⟨s2, ss2⟩
    · simpa [joinWith] using h s (by simp)
    · have h1 := h s (by simp)
      have h2 := ih (fun x hx => h x (List.mem_cons_of_mem _ hx))
      simp [joinWith, List.mem_append, List.mem_cons, h1, h2, hcd]

theorem pipe_not_mem_boolField (b : Bool) : '|' ∉ boolField b := by
  cases b <;> decide

theorem decide_boolField_eq_true (b : Bool) : decide (boolField b = lit "true") = b := by
  cases b <;> rfl

/-- C6: the persisted resource identifier is the pipe-joined sequence of,
in this fixed order: role name, database name, comma-joined privileges,
all-privileges flag, with-grant-option flag, on-database flag, on-schema
flag, on-schema-object flag, all flag, future flag, object type, object
name, plural object type, in-schema flag, schema name, with every boolean
rendered as the literal string "true" or "false". -/
theorem identifier_format (v : GrantPrivilegesToDatabaseRoleID) :
    v.String = joinWith '|'
      [v.RoleName, v.DatabaseName, joinWith ',' v.Privileges,
       boolField v.AllPrivileges, boolField v.WithGrantOption,
       boolField v.OnDatabase, boolField v.OnSchema,
       boolField v.OnSchemaObject, boolField v.All, boolField v.Future,
       v.ObjectType, v.ObjectName, v.ObjectTypePlural,
       boolField v.InSchema, v.SchemaName] := rfl

/-- C10: the decoder is defined (all fifteen segment accesses in bounds)
exactly on inputs with at least 14 pipe characters; on anything shorter —
such as an identifier in an older format — a segment access is out of
bounds, so the decoder is not total over arbitrary identifier strings. -/
theorem decoder_defined_iff_enough_pipes (s : Str) :
    (NewGrantPrivilegesToDatabaseRoleID s).isSome = true ↔ 14 ≤ s.count '|' := by
  have hl := length_splitOnChar '|' s
  simp only [NewGrantPrivilegesToDatabaseRoleID]
  split
  next h => simp only [Option.isSome_some, true_iff]; omega
  next h => simp only [Option.isSome_none, Bool.false_eq_true, false_iff]; omega

/-- C10 witness: the encoder always produces enough pipes, e.g. on
`sampleRoundTripID`, and the decoder is defined there. -/
theorem decoder_defined_sample :
    14 ≤ List.count '|' sampleRoundTripID.String :=
  (decoder_defined_iff_enough_pipes sampleRoundTripID.String).mp (by decide)

/-- C1 counterexample: the claim fails as stated.  `sampleInDatabaseID` is
a valid identity (an on-schema-object ALL TABLES IN DATABASE grant) with
`InDatabase = true`; decoding its encoded identifier does not return it
unchanged, because `String()` never encodes `InDatabase` and the decoder
leaves the field at its zero value `false`. -/
theorem decode_encode_drops_inDatabase :
    NewGrantPrivilegesToDatabaseRoleID sampleInDatabaseID.String ≠ some sampleInDatabaseID := by
  decide

/-- C1 (amended): decoding the encoded identifier returns every field
unchanged except `InDatabase`, which is absent from the encoding; the
round-trip law `NewGrantPrivilegesToDatabaseRoleID(x.String()) == x` holds
for every valid identity `x` with `InDatabase = false` (valid: no field
contains the `|` delimiter, and each privilege is non-empty and free of
both delimiters; the privilege list itself may be empty, and all
combinations of the target flags are covered). -/
theorem decode_encode_roundtrip (v : GrantPrivilegesToDatabaseRoleID)
    (hRole : '|' ∉ v.RoleName) (hDb : '|' ∉ v.DatabaseName)
    (hPriv : ∀ p ∈ v.Privileges, p ≠ [] ∧ '|' ∉ p ∧ ',' ∉ p)
    (hOt : '|' ∉ v.ObjectType) (hOn : '|' ∉ v.ObjectName)
    (hOtp : '|' ∉ v.ObjectTypePlural) (hSn : '|' ∉ v.SchemaName)
    (hInDb : v.InDatabase = false) :
    NewGrantPrivilegesToDatabaseRoleID v.String = some v := by
  obtain ⟨r, db, ps, ap, wgo, odb, osch, oso, al, fut, ot, onm, otp, isch, sn, idb⟩ := v
  simp only at hRole hDb hPriv hOt hOn hOtp hSn hInDb
  subst hInDb
  have hsplit : splitOnChar '|'
      (GrantPrivilegesToDatabaseRoleID.String
        ⟨r, db, ps, ap, wgo, odb, osch, oso, al, fut, ot, onm, otp, isch, sn, false⟩) =
      [r, db, joinWith ',' ps, boolField ap, boolField wgo, boolField odb,
       boolField osch, boolField oso, boolField al, boolField fut, ot, onm,
       otp, boolField isch, sn] := by
    simp only [GrantPrivilegesToDatabaseRoleID.String, encodeSnowflakeID, List.map]
    apply splitOnChar_joinWith
    · simp
    · intro s hs
      simp only [List.mem_cons, List.not_mem_nil, or_false] at hs
      rcases hs with rfl | rfl | rfl | rfl | rfl | rfl | rfl | rfl | rfl | rfl | rfl | rfl | rfl | rfl | rfl
      · exact hRole
      · exact hDb
      · exact not_mem_joinWith '|' ',' ps (by decide) (fun p hp => (hPriv p hp).2.1)
      · exact pipe_not_mem_boolField ap
      · exact pipe_not_mem_boolField wgo
      · exact pipe_not_mem_boolField odb
      · exact pipe_not_mem_boolField osch
      · exact pipe_not_mem_boolField oso
      · exact pipe_not_mem_boolField al
      · exact pipe_not_mem_boolField fut
      · exact hOt
      · exact hOn
      · exact hOtp
      · exact pipe_not_mem_boolField isch
      · exact hSn
  have hps : (if splitOnChar ',' (joinWith ',' ps) = [[]] then [] else
      splitOnChar ',' (joinWith ',' ps)) = ps := by
    rcases ps with _ | ⟨q, qs⟩
    · simp [joinWith, splitOnChar]
    · have h1 : splitOnChar ',' (joinWith ',' (q :: qs)) = q :: qs :=
        splitOnChar_joinWith ',' (q :: qs) (by simp)
          (fun p hp => (hPriv p hp).2.2)
      rw [h1]
      have h2 : q :: qs ≠ [[]] := by
        intro e
        have hq := (hPriv q (by simp)).1
        simp only [List.cons.injEq] at e
        exact hq e.1
      simp [h2]
  simp only [NewGrantPrivilegesToDatabaseRoleID, hsplit]
  simp [List.get, hsplit, hps, decide_boolField_eq_true]

/-- C1 witness: the amended round trip at a concrete on-schema identity
with two privileges. -/
theorem decode_encode_roundtrip_sample :
    NewGrantPrivilegesToDatabaseRoleID sampleRoundTripID.String = some sampleRoundTripID :=
  decode_encode_roundtrip sampleRoundTripID (by decide) (by decide) (by decide)
    (by decide) (by decide) (by decide) (by decide) rfl

/-- C2: for every pair of privilege lists, the update's delta computation
yields the two set differences: `addPrivileges` is `new − old` and
`removePrivileges` is `old − new` (memberships depend only on membership in
the inputs, so the result sets are independent of element order); the two
results are disjoint; and removing `removePrivileges` from `old` then
adding `addPrivileges` yields exactly `new`. -/
theorem privilege_diff_spec (oldPrivileges newPrivileges : List Str) :
    (∀ p, p ∈ addPrivileges oldPrivileges newPrivileges ↔
        p ∈ newPrivileges ∧ p ∉ oldPrivileges) ∧
    (∀ p, p ∈ removePrivileges oldPrivileges newPrivileges ↔
        p ∈ oldPrivileges ∧ p ∉ newPrivileges) ∧
    (∀ p, p ∈ addPrivileges oldPrivileges newPrivileges →
        p ∉ removePrivileges oldPrivileges newPrivileges) ∧
    (∀ p, p ∈ (oldPrivileges.filter fun q =>
          decide (q ∉ removePrivileges oldPrivileges newPrivileges)) ++
          addPrivileges oldPrivileges newPrivileges ↔ p ∈ newPrivileges) := by
  refine ⟨?_, ?_, ?_, ?_⟩ <;> intro p <;>
    simp [addPrivileges, removePrivileges, List.mem_filter, List.mem_append] <;>
    tauto

/-- C2 witness: the spec scenario — old `{MONITOR USAGE}`, new
`{MONITOR USAGE, MANAGE GRANTS}` puts `MANAGE GRANTS` in the add set. -/
theorem privilege_diff_spec_sample :
    lit "MANAGE GRANTS" ∈
      addPrivileges [lit "MONITOR USAGE"] [lit "MONITOR USAGE", lit "MANAGE GRANTS"] :=
  ((privilege_diff_spec [lit "MONITOR USAGE"]
      [lit "MONITOR USAGE", lit "MANAGE GRANTS"]).1 (lit "MANAGE GRANTS")).mpr
    (by decide)

theorem except_pure_eq_ok {α : Type} (a : α) : (pure a : Except Str α) = Except.ok a := rfl

theorem except_bind_ok {α β : Type} (a : α) (f : α → Except Str β) :
    (bind (Except.ok a) f : Except Str β) = f a := rfl

theorem except_bind_error {α β : Type} (e : Str) (f : α → Except Str β) :
    (bind (Except.error e) f : Except Str β) = Except.error e := rfl

/-- C3 counterexample: the claim fails as stated.  Updating the privilege
set from `{A}` to `{B}` has a non-empty add set and a non-empty remove
set, yet the first issued statement is the GRANT, with the REVOKE still
pending after it — so not every revoke is issued before any grant. -/
theorem update_privileges_grant_precedes_revoke :
    ∃ tr, updatePrivilegesStatements sampleOnDatabaseConfig [lit "A"] [lit "B"] =
        Except.ok tr ∧
      addPrivileges [lit "A"] [lit "B"] ≠ [] ∧
      removePrivileges [lit "A"] [lit "B"] ≠ [] ∧
      tr.head? = some (GrantStmt.grantPrivilegesStmt [lit "B"]) ∧
      GrantStmt.revokePrivilegesStmt [lit "A"] ∈ tr.tail :=
  ⟨[GrantStmt.grantPrivilegesStmt [lit "B"], GrantStmt.revokePrivilegesStmt [lit "A"]],
    rfl, by decide, by decide, rfl, by decide⟩

/-- C3 (amended): `UpdateGrantPrivilegesToDatabaseRole` issues its grant
batch before its revoke batch (add-then-remove, the opposite of the
claimed revoke-then-grant ordering), while `UpdateDatabaseRoleGrants`
issues, within each grantee kind, every revoke before any grant: its trace
is user revokes, user grants, role revokes, role grants. -/
theorem update_statement_order (cfg : GrantConfig) (oldP newP : List Str)
    (tr : List GrantStmt) (oldUsers newUsers oldRoles newRoles : List Str) :
    (updatePrivilegesStatements cfg oldP newP = Except.ok tr →
      ∃ gs rs, tr = gs ++ rs ∧
        (∀ s ∈ gs, ∃ l, s = GrantStmt.grantPrivilegesStmt l) ∧
        (∀ s ∈ rs, ∃ l, s = GrantStmt.revokePrivilegesStmt l)) ∧
    (∃ ur ug rr rg,
      updateDatabaseRoleGrantsStatements oldUsers newUsers oldRoles newRoles =
        ur ++ ug ++ rr ++ rg ∧
      (∀ s ∈ ur, ∃ u, s = RoleGrantStmt.revokeFrom GranteeKind.userKind u) ∧
      (∀ s ∈ ug, ∃ u, s = RoleGrantStmt.grantTo GranteeKind.userKind u) ∧
      (∀ s ∈ rr, ∃ u, s = RoleGrantStmt.revokeFrom GranteeKind.roleKind u) ∧
      (∀ s ∈ rg, ∃ u, s = RoleGrantStmt.grantTo GranteeKind.roleKind u)) := by
  constructor
  · intro h
    by_cases ha : addPrivileges oldP newP = [] <;>
      by_cases hr : removePrivileges oldP newP = []
    · simp only [updatePrivilegesStatements, ha, hr] at h
      simp [except_pure_eq_ok, except_bind_ok, except_bind_error] at h
      subst h
      exact ⟨[], [], by simp, by simp, by simp⟩
    · rcases hc : configureDatabaseRoleGrantPrivilegeOptions cfg
          (removePrivileges oldP newP) false {} with e | x <;>
        simp only [updatePrivilegesStatements, ha, hr, hc] at h <;>
        simp [ha, hr, except_pure_eq_ok, except_bind_ok, except_bind_error] at h
      subst h
      refine ⟨[], [GrantStmt.revokePrivilegesStmt (removePrivileges oldP newP)],
        by simp, by simp, ?_⟩
      intro s hs
      rw [List.mem_singleton] at hs
      exact ⟨_, hs⟩
    · rcases hc : configureDatabaseRoleGrantPrivilegeOptions cfg
          (addPrivileges oldP newP) false {} with e | x <;>
        simp only [updatePrivilegesStatements, ha, hr, hc] at h <;>
        simp [ha, hr, except_pure_eq_ok, except_bind_ok, except_bind_error] at h
      subst h
      refine ⟨[GrantStmt.grantPrivilegesStmt (addPrivileges oldP newP)], [],
        by simp, ?_, by simp⟩
      intro s hs
      rw [List.mem_singleton] at hs
      exact ⟨_, hs⟩
    · rcases hc : configureDatabaseRoleGrantPrivilegeOptions cfg
          (addPrivileges oldP newP) false {} with e | x <;>
        rcases hc2 : configureDatabaseRoleGrantPrivilegeOptions cfg
          (removePrivileges oldP newP) false {} with e2 | x2 <;>
        simp only [updatePrivilegesStatements, ha, hr, hc, hc2] at h <;>
        simp [ha, hr, except_pure_eq_ok, except_bind_ok, except_bind_error] at h
      subst h
      refine ⟨[GrantStmt.grantPrivilegesStmt (addPrivileges oldP newP)],
        [GrantStmt.revokePrivilegesStmt (removePrivileges oldP newP)],
        by simp, ?_, ?_⟩ <;> intro s hs <;> rw [List.mem_singleton] at hs <;>
        exact ⟨_, hs⟩
  · refine ⟨(oldUsers.filter fun u => decide (u ∉ newUsers)).map
        (RoleGrantStmt.revokeFrom GranteeKind.userKind),
      (newUsers.filter fun u => decide (u ∉ oldUsers)).map
        (RoleGrantStmt.grantTo GranteeKind.userKind),
      (oldRoles.filter fun u => decide (u ∉ newRoles)).map
        (RoleGrantStmt.revokeFrom GranteeKind.roleKind),
      (newRoles.filter fun u => decide (u ∉ oldRoles)).map
        (RoleGrantStmt.grantTo GranteeKind.roleKind),
      by simp [updateDatabaseRoleGrantsStatements, xStatements], ?_, ?_, ?_, ?_⟩ <;>
      intro s hs <;> rcases List.mem_map.mp hs with ⟨u, _, rfl⟩ <;> exact ⟨u, rfl⟩

/-- C3 witness: the amended ordering at the counterexample input — the
privilege-update trace decomposes as grants followed by revokes. -/
theorem update_statement_order_sample :
    ∃ gs rs, ([GrantStmt.grantPrivilegesStmt [lit "B"],
        GrantStmt.revokePrivilegesStmt [lit "A"]] : List GrantStmt) = gs ++ rs ∧
      (∀ s ∈ gs, ∃ l, s = GrantStmt.grantPrivilegesStmt l) ∧
      (∀ s ∈ rs, ∃ l, s = GrantStmt.revokePrivilegesStmt l) :=
  (update_statement_order sampleOnDatabaseConfig [lit "A"] [lit "B"]
    [GrantStmt.grantPrivilegesStmt [lit "B"], GrantStmt.revokePrivilegesStmt [lit "A"]]
    [] [] [] []).1 rfl

theorem readPrivileges_eq_filter (grantedOn : Str)
    (id : GrantPrivilegesToDatabaseRoleID) (withGrantOption : Bool)
    (roleName : Str) (grants : List ObservedGrant) :
    readDatabaseRoleGrantPrivileges grantedOn id withGrantOption roleName grants =
      (grants.filter fun g => decide (g.Privilege ∈ id.Privileges ∧
        g.GrantOption = withGrantOption ∧ g.GranteeName = roleName ∧
        (id.Future = false → g.GrantedBy ≠ []) ∧
        (grantedOn = g.GrantedOn ∨ grantedOn = g.GrantOn))).map
        (fun g => g.Privilege) := by
  induction grants with
  | nil => rfl
  | cons g gs ih =>
    by_cases hC : g.Privilege ∈ id.Privileges ∧ g.GrantOption = withGrantOption ∧
        g.GranteeName = roleName ∧ (id.Future = false → g.GrantedBy ≠ []) ∧
        (grantedOn = g.GrantedOn ∨ grantedOn = g.GrantOn)
    · simp only [readDatabaseRoleGrantPrivileges, ih, List.filter_cons,
        decide_eq_true_eq]
      rw [if_pos hC, List.map_cons]
      split_ifs with h1 h2 h3 h4
      · exact (hC.2.2.2.1 h3.1 h3.2).elim
      · rfl
      · exact (h4 hC.2.2.2.2).elim
      · exact (h2 ⟨hC.2.1, hC.2.2.1⟩).elim
      · exact (h1 hC.1).elim
    · simp only [readDatabaseRoleGrantPrivileges, ih, List.filter_cons,
        decide_eq_true_eq]
      rw [if_neg hC]
      split_ifs with h1 h2 h3 h4
      · rfl
      · exact absurd ⟨h1, h2.1, h2.2, fun hf hb => h3 ⟨hf, hb⟩, h4⟩ hC
      · rfl
      · rfl
      · rfl

/-- C4: the privileges that read-reconciliation reports (and writes back
with `d.Set("privileges", …)`) are always a subset of the privileges in
the stored identity: a privilege absent from the stored identity is never
reported, even when the remote system shows it granted. -/
theorem read_reports_subset (grantedOn : Str)
    (id : GrantPrivilegesToDatabaseRoleID) (withGrantOption : Bool)
    (roleName : Str) (grants : List ObservedGrant) :
    ∀ p ∈ readDatabaseRoleGrantPrivileges grantedOn id withGrantOption roleName grants,
      p ∈ id.Privileges := by
  intro p hp
  rw [readPrivileges_eq_filter] at hp
  rcases List.mem_map.mp hp with ⟨g, hg, rfl⟩
  have hcond := (List.mem_filter.mp hg).2
  simp only [decide_eq_true_eq] at hcond
  exact hcond.1

/-- C4 witness: at a concrete identity and observed grant list. -/
theorem read_reports_subset_sample : lit "USAGE" ∈ sampleReadID.Privileges :=
  read_reports_subset (lit "DATABASE") sampleReadID false (lit "role1")
    [sampleObservedGrant] (lit "USAGE") (by decide)

/-- C5: read-reconciliation attributes an observed row's privilege to the
identity exactly when the privilege is in the stored set, the row's
grant-option flag equals the configured `with_grant_option`, the grantee
name equals the role name, for a non-future identity the row's granted-by
field is non-empty, and the row's `grantedOn` or `grantOn` object type (the
former populated for current grants, the latter for future grants — the
source tests the two fields the same way) equals the resolved target
object type: the reported list is exactly the filter of the observed rows
by that condition, in row order. -/
theorem read_attribution (grantedOn : Str)
    (id : GrantPrivilegesToDatabaseRoleID) (withGrantOption : Bool)
    (roleName : Str) (grants : List ObservedGrant) :
    readDatabaseRoleGrantPrivileges grantedOn id withGrantOption roleName grants =
      (grants.filter fun g => decide (g.Privilege ∈ id.Privileges ∧
        g.GrantOption = withGrantOption ∧ g.GranteeName = roleName ∧
        (id.Future = false → g.GrantedBy ≠ []) ∧
        (grantedOn = g.GrantedOn ∨ grantedOn = g.GrantOn))).map
        (fun g => g.Privilege) :=
  readPrivileges_eq_filter grantedOn id withGrantOption roleName grants

/-- C5 witness: the characterisation evaluated at a concrete grant list —
the matching row is attributed. -/
theorem read_attribution_sample :
    readDatabaseRoleGrantPrivileges (lit "DATABASE") sampleReadID false
      (lit "role1") [sampleObservedGrant] = [lit "USAGE"] :=
  (read_attribution (lit "DATABASE") sampleReadID false (lit "role1")
    [sampleObservedGrant]).trans (by decide)

/-- C7: when the stored identifier has `all_privileges = true`, the Read
operation returns success immediately: no `SHOW GRANTS` query is issued and
no attribute or identifier write happens (the plan is `noop`). -/
theorem read_allPrivileges_noop (singularOf : Str → Str)
    (resourceID : GrantPrivilegesToDatabaseRoleID)
    (h : resourceID.AllPrivileges = true) :
    readGrantPrivilegesPlan singularOf resourceID = ReadStep.noop := by
  simp [readGrantPrivilegesPlan, h]

/-- C7 witness: at a concrete identifier with the all-privileges flag. -/
theorem read_allPrivileges_noop_sample :
    readGrantPrivilegesPlan (fun s => s)
      { sampleReadID with AllPrivileges := true } = ReadStep.noop :=
  read_allPrivileges_noop (fun s => s) { sampleReadID with AllPrivileges := true } rfl

/-- C8: a revoke of a database-role grant from a role or user returns
success when the remote execution succeeds, and also when the execution
fails with remote error number 2003 while the secondary existence listing
does not contain the grantee; in every other case (another error number,
another error kind, or error 2003 with the grantee still listed) the
original error is returned unchanged. -/
theorem revoke_recovers_missing_grantee (execResult : SnowflakeExecResult)
    (listed : List Str) (grantee : Str) :
    (revokeDatabaseRoleFromRole execResult listed grantee = SnowflakeExecResult.ok ↔
      execResult = SnowflakeExecResult.ok ∨
      ∃ m, execResult = SnowflakeExecResult.snowflakeError 2003 m ∧ grantee ∉ listed) ∧
    (revokeDatabaseRoleFromRole execResult listed grantee ≠ SnowflakeExecResult.ok →
      revokeDatabaseRoleFromRole execResult listed grantee = execResult) ∧
    (revokeDatabaseRoleFromUser execResult listed grantee = SnowflakeExecResult.ok ↔
      execResult = SnowflakeExecResult.ok ∨
      ∃ m, execResult = SnowflakeExecResult.snowflakeError 2003 m ∧ grantee ∉ listed) ∧
    (revokeDatabaseRoleFromUser execResult listed grantee ≠ SnowflakeExecResult.ok →
      revokeDatabaseRoleFromUser execResult listed grantee = execResult) := by
  have key : ∀ (er : SnowflakeExecResult) (ls : List Str) (g : Str),
      (revokeDatabaseRoleFromRole er ls g = SnowflakeExecResult.ok ↔
        er = SnowflakeExecResult.ok ∨
        ∃ m, er = SnowflakeExecResult.snowflakeError 2003 m ∧ g ∉ ls) ∧
      (revokeDatabaseRoleFromRole er ls g ≠ SnowflakeExecResult.ok →
        revokeDatabaseRoleFromRole er ls g = er) := by
    intro er ls g
    cases er with
    | ok => simp [revokeDatabaseRoleFromRole]
    | otherError m => simp [revokeDatabaseRoleFromRole]
    | snowflakeError n m =>
      simp only [revokeDatabaseRoleFromRole]
      split_ifs with hc
      · obtain ⟨hn, hmem⟩ := hc
        subst hn
        simp [hmem]
      · refine ⟨⟨fun h2 => absurd h2 (by simp), fun h2 => ?_⟩,
          fun _ => rfl⟩
        rcases h2 with h2 | ⟨m2, he, hmem⟩
        · exact absurd h2 (by simp)
        · injection he with h1 h2
          exact (hc ⟨h1, hmem⟩).elim
  exact ⟨(key execResult listed grantee).1, (key execResult listed grantee).2,
    (key execResult listed grantee).1, (key execResult listed grantee).2⟩

/-- C8 witness: error 2003 with the grantee absent from the listing is
treated as success. -/
theorem revoke_recovers_missing_grantee_sample :
    revokeDatabaseRoleFromRole (SnowflakeExecResult.snowflakeError 2003 [])
      [] (lit "role2") = SnowflakeExecResult.ok :=
  (revoke_recovers_missing_grantee (SnowflakeExecResult.snowflakeError 2003 [])
    [] (lit "role2")).1.mpr (Or.inr ⟨[], rfl, by decide⟩)

/-- C9: target resolution yields exactly one populated grant-target branch
when exactly one of `on_database`, `on_schema`, `on_schema_object` is
populated (for a configuration that passes the schema's `RequiredWith`
constraint on `object_type`/`object_name`, without which the source
nil-panics at line 991 and schema validation rejects the configuration
first), and fails with an error — before any remote grant or revoke
statement is issued — when zero or two-or-more branches are populated
(two-or-more is rejected by the schema's `ConflictsWith` validation, zero
by `configureDatabaseRoleGrantPrivilegeOptions` itself). -/
theorem target_resolution (cfg : GrantConfig) (privileges : List Str)
    (allPrivileges : Bool) (resourceID : GrantPrivilegesToDatabaseRoleID) :
    (populatedTargetCount cfg = 1 → validateRequiredWith cfg = Except.ok () →
      ∃ result, createTargetResolution cfg privileges allPrivileges resourceID =
          Except.ok result ∧ grantOnBranchCount result.2.1 = 1) ∧
    (populatedTargetCount cfg ≠ 1 →
      ∃ msg, createTargetResolution cfg privileges allPrivileges resourceID =
          Except.error msg) := by
  obtain ⟨b1, o2, o3⟩ := cfg
  cases b1 <;> rcases o2 with _ | os <;> rcases o3 with _ | oso
  · exact ⟨fun h _ => by simp [populatedTargetCount] at h, fun _ => ⟨_, rfl⟩⟩
  · refine ⟨fun h hw => ?_, fun h => (h rfl).elim⟩
    have hreq : ¬((oso.object_type ≠ [] ∧ oso.object_name = []) ∨
        (oso.object_name ≠ [] ∧ oso.object_type = [])) := by
      intro hbad
      simp only [validateRequiredWith, if_pos hbad] at hw
      exact absurd hw (by simp)
    have hpipe : createTargetResolution
          { on_database := false, on_schema := none, on_schema_object := some oso }
          privileges allPrivileges resourceID =
        configureDatabaseRoleGrantPrivilegeOptions
          { on_database := false, on_schema := none, on_schema_object := some oso }
          privileges allPrivileges resourceID := by
      simp only [createTargetResolution]
      rw [hw]
      rfl
    rw [hpipe]
    by_cases ht : oso.object_type = []
    · have hn : oso.object_name = [] := by
        by_contra hn
        exact hreq (Or.inr ⟨hn, ht⟩)
      simp only [configureDatabaseRoleGrantPrivilegeOptions, ht, hn, ne_eq,
        not_true_eq_false, false_and, and_false, if_false, ite_false,
        not_false_eq_true, or_false, false_or, if_neg]
      exact ⟨_, rfl, rfl⟩
    · simp only [configureDatabaseRoleGrantPrivilegeOptions, ht, ne_eq,
        not_false_eq_true, if_true, ite_true, Option.some_ne_none, and_false,
        if_false, ite_false, if_neg]
      exact ⟨_, rfl, rfl⟩
  · exact ⟨fun _ _ => ⟨_, rfl, rfl⟩, fun h => (h rfl).elim⟩
  · exact ⟨fun h _ => by simp [populatedTargetCount] at h, fun _ => ⟨_, rfl⟩⟩
  · exact ⟨fun _ _ => ⟨_, rfl, rfl⟩, fun h => (h rfl).elim⟩
  · exact ⟨fun h _ => by simp [populatedTargetCount] at h, fun _ => ⟨_, rfl⟩⟩
  · exact ⟨fun h _ => by simp [populatedTargetCount] at h, fun _ => ⟨_, rfl⟩⟩
  · exact ⟨fun h _ => by simp [populatedTargetCount] at h, fun _ => ⟨_, rfl⟩⟩

/-- C9 witness: a single populated branch — a well-formed schema-object
target — resolves to exactly one target; a doubly-populated configuration
fails. -/
theorem target_resolution_sample :
    (∃ result, createTargetResolution
        { on_schema_object := some { object_type := lit "TABLE", object_name := lit "t1" } }
        [lit "SELECT"] false {} =
        Except.ok result ∧ grantOnBranchCount result.2.1 = 1) ∧
    (∃ msg, createTargetResolution { on_database := true, on_schema := some {} }
        [] false {} = Except.error msg) :=
  ⟨(target_resolution
      { on_schema_object := some { object_type := lit "TABLE", object_name := lit "t1" } }
      [lit "SELECT"] false {}).1 (by decide) rfl,
   (target_resolution { on_database := true, on_schema := some {} } [] false {}).2
     (by decide)⟩
